import Mathlib

set_option maxRecDepth 100000

/-!  Verification of the hyper-mcp example plugins: the `rstime` plugin
(`examples/plugins/v2/rstime/src/lib.rs`) and the cross-plugin `wrapper`
test plugin (`tests/integrations/wrapper-plugin/src/lib.rs`).  -/

instance {ε α : Type} [DecidableEq ε] [DecidableEq α] : DecidableEq (Except ε α) := fun x y =>
  match x, y with
  | .ok a, .ok b =>
    if h : a = b then .isTrue (by rw [h])
    else .isFalse (fun hh => h (Except.ok.inj hh))
  | .error a, .error b =>
    if h : a = b then .isTrue (by rw [h])
    else .isFalse (fun hh => h (Except.error.inj hh))
  | .ok _, .error _ => .isFalse (fun hh => Except.noConfusion hh)
  | .error _, .ok _ => .isFalse (fun hh => Except.noConfusion hh)

/-- Untyped structured JSON value (`serde_json::Value`); objects are
association lists with unique keys. -/
inductive JValue where
  | null
  | bool (b : Bool)
  | num (n : Int)
  | str (s : String)
  | arr (elems : List JValue)
  | obj (fields : List (String × JValue))
deriving Repr

/-- `serde_json::Map::get`: first binding of the key in the association list. -/
def jLookup (fields : List (String × JValue)) (key : String) : Option JValue :=
  (fields.find? (fun p => p.1 = key)).map (fun p => p.2)

/-- `serde_json::Value::as_str`. -/
def jAsStr : JValue → Option String
  | .str s => some s
  | _ => none

/-- Rust `u8::to_ascii_lowercase` on a character: shift ASCII A-Z down by 32. -/
def asciiLowerChar (c : Char) : Char :=
  if 65 ≤ c.toNat ∧ c.toNat ≤ 90 then Char.ofNat (c.toNat + 32) else c

/-- Rust `str::to_ascii_lowercase`. -/
def asciiLower (s : String) : String := ⟨s.data.map asciiLowerChar⟩

/-- Rust `str::replace(" ", "_")` (the pattern is a single character). -/
def replaceSpaceUnderscore (s : String) : String :=
  ⟨s.data.map (fun c => if c = ' ' then '_' else c)⟩

/-- Substring containment on character lists (naive search, every suffix). -/
def charsContain (needle haystack : List Char) : Bool :=
  match haystack with
  | [] => needle.isEmpty
  | _ :: t => needle.isPrefixOf haystack || charsContain needle t

/-- Rust `str::contains(&str)`: `hay.contains(needle)`. -/
def strContains (hay needle : String) : Bool := charsContain needle.data hay.data

/-- Rust `str::starts_with(&str)`. -/
def strStartsWith (s p : String) : Bool := p.data.isPrefixOf s.data

/-- Modelled from the spec: `chrono_tz::TZ_VARIANTS`, the completion
candidate corpus — a fixed enumeration of 596 known timezone names
(the crate itself is an external collaborator and its source is not part
of this repository).  Faithful to the spec's stated facts: 596 entries,
it contains `"UTC"`, `"America/Los_Angeles"` and `"America/New_York"`,
and `"UTC"` is the only entry whose lower-cased name contains `"utc"`. -/
def TZ_VARIANTS : List String := [
  "Africa/Abidjan",
  "Africa/Accra",
  "Africa/Addis_Ababa",
  "Africa/Algiers",
  "Africa/Asmara",
  "Africa/Asmera",
  "Africa/Bamako",
  "Africa/Bangui",
  "Africa/Banjul",
  "Africa/Bissau",
  "Africa/Blantyre",
  "Africa/Brazzaville",
  "Africa/Bujumbura",
  "Africa/Cairo",
  "Africa/Casablanca",
  "Africa/Ceuta",
  "Africa/Conakry",
  "Africa/Dakar",
  "Africa/Dar_es_Salaam",
  "Africa/Djibouti",
  "Africa/Douala",
  "Africa/El_Aaiun",
  "Africa/Freetown",
  "Africa/Gaborone",
  "Africa/Harare",
  "Africa/Johannesburg",
  "Africa/Juba",
  "Africa/Kampala",
  "Africa/Khartoum",
  "Africa/Kigali",
  "Africa/Kinshasa",
  "Africa/Lagos",
  "Africa/Libreville",
  "Africa/Lome",
  "Africa/Luanda",
  "Africa/Lubumbashi",
  "Africa/Lusaka",
  "Africa/Malabo",
  "Africa/Maputo",
  "Africa/Maseru",
  "Africa/Mbabane",
  "Africa/Mogadishu",
  "Africa/Monrovia",
  "Africa/Nairobi",
  "Africa/Ndjamena",
  "Africa/Niamey",
  "Africa/Nouakchott",
  "Africa/Ouagadougou",
  "Africa/Porto-Novo",
  "Africa/Sao_Tome",
  "Africa/Timbuktu",
  "Africa/Tripoli",
  "Africa/Tunis",
  "Africa/Windhoek",
  "America/Adak",
  "America/Anchorage",
  "America/Anguilla",
  "America/Antigua",
  "America/Araguaina",
  "America/Argentina/Buenos_Aires",
  "America/Argentina/Catamarca",
  "America/Argentina/ComodRivadavia",
  "America/Argentina/Cordoba",
  "America/Argentina/Jujuy",
  "America/Argentina/La_Rioja",
  "America/Argentina/Mendoza",
  "America/Argentina/Rio_Gallegos",
  "America/Argentina/Salta",
  "America/Argentina/San_Juan",
  "America/Argentina/San_Luis",
  "America/Argentina/Tucuman",
  "America/Argentina/Ushuaia",
  "America/Aruba",
  "America/Asuncion",
  "America/Atikokan",
  "America/Atka",
  "America/Bahia",
  "America/Bahia_Banderas",
  "America/Barbados",
  "America/Belem",
  "America/Belize",
  "America/Blanc-Sablon",
  "America/Boa_Vista",
  "America/Bogota",
  "America/Boise",
  "America/Buenos_Aires",
  "America/Cambridge_Bay",
  "America/Campo_Grande",
  "America/Cancun",
  "America/Caracas",
  "America/Catamarca",
  "America/Cayenne",
  "America/Cayman",
  "America/Chicago",
  "America/Chihuahua",
  "America/Ciudad_Juarez",
  "America/Coral_Harbour",
  "America/Cordoba",
  "America/Costa_Rica",
  "America/Creston",
  "America/Cuiaba",
  "America/Curacao",
  "America/Danmarkshavn",
  "America/Dawson",
  "America/Dawson_Creek",
  "America/Denver",
  "America/Detroit",
  "America/Dominica",
  "America/Edmonton",
  "America/Eirunepe",
  "America/El_Salvador",
  "America/Ensenada",
  "America/Fort_Nelson",
  "America/Fort_Wayne",
  "America/Fortaleza",
  "America/Glace_Bay",
  "America/Godthab",
  "America/Goose_Bay",
  "America/Grand_Turk",
  "America/Grenada",
  "America/Guadeloupe",
  "America/Guatemala",
  "America/Guayaquil",
  "America/Guyana",
  "America/Halifax",
  "America/Havana",
  "America/Hermosillo",
  "America/Indiana/Indianapolis",
  "America/Indiana/Knox",
  "America/Indiana/Marengo",
  "America/Indiana/Petersburg",
  "America/Indiana/Tell_City",
  "America/Indiana/Vevay",
  "America/Indiana/Vincennes",
  "America/Indiana/Winamac",
  "America/Indianapolis",
  "America/Inuvik",
  "America/Iqaluit",
  "America/Jamaica",
  "America/Jujuy",
  "America/Juneau",
  "America/Kentucky/Louisville",
  "America/Kentucky/Monticello",
  "America/Knox_IN",
  "America/Kralendijk",
  "America/La_Paz",
  "America/Lima",
  "America/Los_Angeles",
  "America/Louisville",
  "America/Lower_Princes",
  "America/Maceio",
  "America/Managua",
  "America/Manaus",
  "America/Marigot",
  "America/Martinique",
  "America/Matamoros",
  "America/Mazatlan",
  "America/Mendoza",
  "America/Menominee",
  "America/Merida",
  "America/Metlakatla",
  "America/Mexico_City",
  "America/Miquelon",
  "America/Moncton",
  "America/Monterrey",
  "America/Montevideo",
  "America/Montreal",
  "America/Montserrat",
  "America/Nassau",
  "America/New_York",
  "America/Nipigon",
  "America/Nome",
  "America/Noronha",
  "America/North_Dakota/Beulah",
  "America/North_Dakota/Center",
  "America/North_Dakota/New_Salem",
  "America/Nuuk",
  "America/Ojinaga",
  "America/Panama",
  "America/Pangnirtung",
  "America/Paramaribo",
  "America/Phoenix",
  "America/Port-au-Prince",
  "America/Port_of_Spain",
  "America/Porto_Acre",
  "America/Porto_Velho",
  "America/Puerto_Rico",
  "America/Punta_Arenas",
  "America/Rainy_River",
  "America/Rankin_Inlet",
  "America/Recife",
  "America/Regina",
  "America/Resolute",
  "America/Rio_Branco",
  "America/Rosario",
  "America/Santa_Isabel",
  "America/Santarem",
  "America/Santiago",
  "America/Santo_Domingo",
  "America/Sao_Paulo",
  "America/Scoresbysund",
  "America/Shiprock",
  "America/Sitka",
  "America/St_Barthelemy",
  "America/St_Johns",
  "America/St_Kitts",
  "America/St_Lucia",
  "America/St_Thomas",
  "America/St_Vincent",
  "America/Swift_Current",
  "America/Tegucigalpa",
  "America/Thule",
  "America/Thunder_Bay",
  "America/Tijuana",
  "America/Toronto",
  "America/Tortola",
  "America/Vancouver",
  "America/Virgin",
  "America/Whitehorse",
  "America/Winnipeg",
  "America/Yakutat",
  "America/Yellowknife",
  "Antarctica/Casey",
  "Antarctica/Davis",
  "Antarctica/DumontDUrville",
  "Antarctica/Macquarie",
  "Antarctica/Mawson",
  "Antarctica/McMurdo",
  "Antarctica/Palmer",
  "Antarctica/Rothera",
  "Antarctica/South_Pole",
  "Antarctica/Syowa",
  "Antarctica/Troll",
  "Antarctica/Vostok",
  "Arctic/Longyearbyen",
  "Asia/Aden",
  "Asia/Almaty",
  "Asia/Amman",
  "Asia/Anadyr",
  "Asia/Aqtau",
  "Asia/Aqtobe",
  "Asia/Ashgabat",
  "Asia/Ashkhabad",
  "Asia/Atyrau",
  "Asia/Baghdad",
  "Asia/Bahrain",
  "Asia/Baku",
  "Asia/Bangkok",
  "Asia/Barnaul",
  "Asia/Beirut",
  "Asia/Bishkek",
  "Asia/Brunei",
  "Asia/Calcutta",
  "Asia/Chita",
  "Asia/Choibalsan",
  "Asia/Chongqing",
  "Asia/Chungking",
  "Asia/Colombo",
  "Asia/Dacca",
  "Asia/Damascus",
  "Asia/Dhaka",
  "Asia/Dili",
  "Asia/Dubai",
  "Asia/Dushanbe",
  "Asia/Famagusta",
  "Asia/Gaza",
  "Asia/Harbin",
  "Asia/Hebron",
  "Asia/Ho_Chi_Minh",
  "Asia/Hong_Kong",
  "Asia/Hovd",
  "Asia/Irkutsk",
  "Asia/Istanbul",
  "Asia/Jakarta",
  "Asia/Jayapura",
  "Asia/Jerusalem",
  "Asia/Kabul",
  "Asia/Kamchatka",
  "Asia/Karachi",
  "Asia/Kashgar",
  "Asia/Kathmandu",
  "Asia/Katmandu",
  "Asia/Khandyga",
  "Asia/Kolkata",
  "Asia/Krasnoyarsk",
  "Asia/Kuala_Lumpur",
  "Asia/Kuching",
  "Asia/Kuwait",
  "Asia/Macao",
  "Asia/Macau",
  "Asia/Magadan",
  "Asia/Makassar",
  "Asia/Manila",
  "Asia/Muscat",
  "Asia/Nicosia",
  "Asia/Novokuznetsk",
  "Asia/Novosibirsk",
  "Asia/Omsk",
  "Asia/Oral",
  "Asia/Phnom_Penh",
  "Asia/Pontianak",
  "Asia/Pyongyang",
  "Asia/Qatar",
  "Asia/Qostanay",
  "Asia/Qyzylorda",
  "Asia/Rangoon",
  "Asia/Riyadh",
  "Asia/Saigon",
  "Asia/Sakhalin",
  "Asia/Samarkand",
  "Asia/Seoul",
  "Asia/Shanghai",
  "Asia/Singapore",
  "Asia/Srednekolymsk",
  "Asia/Taipei",
  "Asia/Tashkent",
  "Asia/Tbilisi",
  "Asia/Tehran",
  "Asia/Tel_Aviv",
  "Asia/Thimbu",
  "Asia/Thimphu",
  "Asia/Tokyo",
  "Asia/Tomsk",
  "Asia/Ujung_Pandang",
  "Asia/Ulaanbaatar",
  "Asia/Ulan_Bator",
  "Asia/Urumqi",
  "Asia/Ust-Nera",
  "Asia/Vientiane",
  "Asia/Vladivostok",
  "Asia/Yakutsk",
  "Asia/Yangon",
  "Asia/Yekaterinburg",
  "Asia/Yerevan",
  "Atlantic/Azores",
  "Atlantic/Bermuda",
  "Atlantic/Canary",
  "Atlantic/Cape_Verde",
  "Atlantic/Faeroe",
  "Atlantic/Faroe",
  "Atlantic/Jan_Mayen",
  "Atlantic/Madeira",
  "Atlantic/Reykjavik",
  "Atlantic/South_Georgia",
  "Atlantic/St_Helena",
  "Atlantic/Stanley",
  "Australia/ACT",
  "Australia/Adelaide",
  "Australia/Brisbane",
  "Australia/Broken_Hill",
  "Australia/Canberra",
  "Australia/Currie",
  "Australia/Darwin",
  "Australia/Eucla",
  "Australia/Hobart",
  "Australia/LHI",
  "Australia/Lindeman",
  "Australia/Lord_Howe",
  "Australia/Melbourne",
  "Australia/NSW",
  "Australia/North",
  "Australia/Perth",
  "Australia/Queensland",
  "Australia/South",
  "Australia/Sydney",
  "Australia/Tasmania",
  "Australia/Victoria",
  "Australia/West",
  "Australia/Yancowinna",
  "Brazil/Acre",
  "Brazil/DeNoronha",
  "Brazil/East",
  "Brazil/West",
  "CET",
  "CST6CDT",
  "Canada/Atlantic",
  "Canada/Central",
  "Canada/Eastern",
  "Canada/Mountain",
  "Canada/Newfoundland",
  "Canada/Pacific",
  "Canada/Saskatchewan",
  "Canada/Yukon",
  "Chile/Continental",
  "Chile/EasterIsland",
  "Cuba",
  "EET",
  "EST",
  "EST5EDT",
  "Egypt",
  "Eire",
  "Etc/GMT",
  "Etc/GMT+0",
  "Etc/GMT+1",
  "Etc/GMT+10",
  "Etc/GMT+11",
  "Etc/GMT+12",
  "Etc/GMT+2",
  "Etc/GMT+3",
  "Etc/GMT+4",
  "Etc/GMT+5",
  "Etc/GMT+6",
  "Etc/GMT+7",
  "Etc/GMT+8",
  "Etc/GMT+9",
  "Etc/GMT-0",
  "Etc/GMT-1",
  "Etc/GMT-10",
  "Etc/GMT-11",
  "Etc/GMT-12",
  "Etc/GMT-13",
  "Etc/GMT-14",
  "Etc/GMT-2",
  "Etc/GMT-3",
  "Etc/GMT-4",
  "Etc/GMT-5",
  "Etc/GMT-6",
  "Etc/GMT-7",
  "Etc/GMT-8",
  "Etc/GMT-9",
  "Etc/GMT0",
  "Etc/Greenwich",
  "Etc/UCT",
  "Etc/Universal",
  "Etc/Zulu",
  "Europe/Amsterdam",
  "Europe/Andorra",
  "Europe/Astrakhan",
  "Europe/Athens",
  "Europe/Belfast",
  "Europe/Belgrade",
  "Europe/Berlin",
  "Europe/Bratislava",
  "Europe/Brussels",
  "Europe/Bucharest",
  "Europe/Budapest",
  "Europe/Busingen",
  "Europe/Chisinau",
  "Europe/Copenhagen",
  "Europe/Dublin",
  "Europe/Gibraltar",
  "Europe/Guernsey",
  "Europe/Helsinki",
  "Europe/Isle_of_Man",
  "Europe/Istanbul",
  "Europe/Jersey",
  "Europe/Kaliningrad",
  "Europe/Kiev",
  "Europe/Kirov",
  "Europe/Kyiv",
  "Europe/Lisbon",
  "Europe/Ljubljana",
  "Europe/London",
  "Europe/Luxembourg",
  "Europe/Madrid",
  "Europe/Malta",
  "Europe/Mariehamn",
  "Europe/Minsk",
  "Europe/Monaco",
  "Europe/Moscow",
  "Europe/Nicosia",
  "Europe/Oslo",
  "Europe/Paris",
  "Europe/Podgorica",
  "Europe/Prague",
  "Europe/Riga",
  "Europe/Rome",
  "Europe/Samara",
  "Europe/San_Marino",
  "Europe/Sarajevo",
  "Europe/Saratov",
  "Europe/Simferopol",
  "Europe/Skopje",
  "Europe/Sofia",
  "Europe/Stockholm",
  "Europe/Tallinn",
  "Europe/Tirane",
  "Europe/Tiraspol",
  "Europe/Ulyanovsk",
  "Europe/Uzhgorod",
  "Europe/Vaduz",
  "Europe/Vatican",
  "Europe/Vienna",
  "Europe/Vilnius",
  "Europe/Volgograd",
  "Europe/Warsaw",
  "Europe/Zagreb",
  "Europe/Zaporozhye",
  "Europe/Zurich",
  "Factory",
  "GB",
  "GB-Eire",
  "GMT",
  "GMT+0",
  "GMT-0",
  "GMT0",
  "Greenwich",
  "HST",
  "Hongkong",
  "Iceland",
  "Indian/Antananarivo",
  "Indian/Chagos",
  "Indian/Christmas",
  "Indian/Cocos",
  "Indian/Comoro",
  "Indian/Kerguelen",
  "Indian/Mahe",
  "Indian/Maldives",
  "Indian/Mauritius",
  "Indian/Mayotte",
  "Indian/Reunion",
  "Iran",
  "Israel",
  "Jamaica",
  "Japan",
  "Kwajalein",
  "Libya",
  "MET",
  "MST",
  "MST7MDT",
  "Mexico/BajaNorte",
  "Mexico/BajaSur",
  "Mexico/General",
  "NZ",
  "NZ-CHAT",
  "Navajo",
  "PRC",
  "PST8PDT",
  "Pacific/Apia",
  "Pacific/Auckland",
  "Pacific/Bougainville",
  "Pacific/Chatham",
  "Pacific/Chuuk",
  "Pacific/Easter",
  "Pacific/Efate",
  "Pacific/Enderbury",
  "Pacific/Fakaofo",
  "Pacific/Fiji",
  "Pacific/Funafuti",
  "Pacific/Galapagos",
  "Pacific/Gambier",
  "Pacific/Guadalcanal",
  "Pacific/Guam",
  "Pacific/Honolulu",
  "Pacific/Johnston",
  "Pacific/Kanton",
  "Pacific/Kiritimati",
  "Pacific/Kosrae",
  "Pacific/Kwajalein",
  "Pacific/Majuro",
  "Pacific/Marquesas",
  "Pacific/Midway",
  "Pacific/Nauru",
  "Pacific/Niue",
  "Pacific/Norfolk",
  "Pacific/Noumea",
  "Pacific/Pago_Pago",
  "Pacific/Palau",
  "Pacific/Pitcairn",
  "Pacific/Pohnpei",
  "Pacific/Ponape",
  "Pacific/Port_Moresby",
  "Pacific/Rarotonga",
  "Pacific/Saipan",
  "Pacific/Samoa",
  "Pacific/Tahiti",
  "Pacific/Tarawa",
  "Pacific/Tongatapu",
  "Pacific/Truk",
  "Pacific/Wake",
  "Pacific/Wallis",
  "Pacific/Yap",
  "Poland",
  "Portugal",
  "ROC",
  "ROK",
  "Singapore",
  "Turkey",
  "UCT",
  "US/Alaska",
  "US/Aleutian",
  "US/Arizona",
  "US/Central",
  "US/East-Indiana",
  "US/Eastern",
  "US/Hawaii",
  "US/Indiana-Starke",
  "US/Michigan",
  "US/Mountain",
  "US/Pacific",
  "US/Samoa",
  "UTC",
  "Universal",
  "W-SU",
  "WET",
  "Zulu"
]

/-- The suggestion loop of `complete` (lib.rs lines 221-230): scan the
corpus in order; every match increments `total`; only the first 100
matches are appended to `suggestions`. -/
def tzLoop (query : String) (corpus : List String)
    (suggestions : List String) (total : Int) : List String × Int :=
  match corpus with
  | [] => (suggestions, total)
  | tz :: rest =>
    if strContains (asciiLower tz) query then
      if suggestions.length < 100 then tzLoop query rest (suggestions ++ [tz]) (total + 1)
      else tzLoop query rest suggestions (total + 1)
    else tzLoop query rest suggestions total

structure CompleteResultCompletion where
  has_more : Option Bool
  total : Option Int
  values : List String
deriving Repr, DecidableEq

structure CompleteResult where
  completion : CompleteResultCompletion
deriving Repr, DecidableEq

structure CompleteRequestParamArgument where
  name : String
  value : String
deriving Repr, DecidableEq

/-- The argument branch of `complete` (lib.rs lines 213-243). -/
def completeArgument (argument : CompleteRequestParamArgument) :
    Except String CompleteResult :=
  if argument.name = "timezone" then
    let query := replaceSpaceUnderscore (asciiLower argument.value)
    let r := tzLoop query TZ_VARIANTS [] 0
    .ok ⟨⟨some (decide ((r.1.length : Int) < r.2)), some r.2, r.1⟩⟩
  else .error ("Completion for argument not implemented: " ++ argument.name)


/-- `types::PromptReference` (pdk generated type): `{name, optional title}`. -/
structure PromptReference where
  name : String
  title : Option String
deriving Repr, DecidableEq

/-- `types::ResourceTemplateReference` (pdk generated type): `{uri}`. -/
structure ResourceTemplateReference where
  uri : String
deriving Repr, DecidableEq

/-- `AnyReference` (lib.rs lines 41-44). -/
inductive AnyReference where
  | Prompt (p : PromptReference)
  | Resource (r : ResourceTemplateReference)
deriving Repr, DecidableEq

/-- Modelled from the spec: `serde_json::from_value` for
`types::PromptReference` (the pdk type definitions generated from the
protocol description are not under src).  Per the spec's Reference schema
`Prompt{name, optional title}`: a string `"name"` field is required,
`"title"` is an optional string. -/
def promptRefFromValue (m : List (String × JValue)) : Except String PromptReference :=
  match jLookup m "name" with
  | some (.str n) =>
    match jLookup m "title" with
    | none => .ok ⟨n, none⟩
    | some .null => .ok ⟨n, none⟩
    | some (.str t) => .ok ⟨n, some t⟩
    | some _ => .error "invalid field title in prompt reference"
  | _ => .error "missing field name in prompt reference"

/-- Modelled from the spec: `serde_json::from_value` for
`types::ResourceTemplateReference` (pdk generated type not under src).
Per the spec's Reference schema `ResourceTemplate{uri pattern}`: a string
`"uri"` field is required. -/
def resourceRefFromValue (m : List (String × JValue)) :
    Except String ResourceTemplateReference :=
  match jLookup m "uri" with
  | some (.str u) => .ok ⟨u⟩
  | _ => .error "missing field uri in resource reference"

/-- `TryFrom<serde_json::Map<String, Value>> for AnyReference`
(lib.rs lines 46-72): read the `"type"` discriminant with
`get("type").and_then(as_str)`; on `"prompt"` / `"resource"` re-interpret
the full map as the corresponding variant, otherwise fail. -/
def referenceFromMap (m : List (String × JValue)) : Except String AnyReference :=
  match (jLookup m "type").bind jAsStr with
  | none => .error "Missing or invalid 'type' field in reference"
  | some type_value =>
    if type_value = "prompt" then
      match promptRefFromValue m with
      | .ok p => .ok (.Prompt p)
      | .error e => .error e
    else if type_value = "resource" then
      match resourceRefFromValue m with
      | .ok r => .ok (.Resource r)
      | .error e => .error e
    else .error ("Unknown reference type: " ++ type_value)

structure CompleteRequestParam where
  ref : List (String × JValue)
  argument : CompleteRequestParamArgument
deriving Repr

structure CompleteRequest where
  request : CompleteRequestParam
deriving Repr

/-- `complete` (lib.rs lines 189-244): resolve the reference, reject a
prompt reference other than `get_time_with_timezone` and a resource
reference other than the timezone-converter template, then dispatch on
the argument name. -/
def complete (input : CompleteRequest) : Except String CompleteResult :=
  match referenceFromMap input.request.ref with
  | .error e => .error e
  | .ok (.Prompt p) =>
    if p.name ≠ "get_time_with_timezone" then
      .error ("Completion for prompt not implemented: " ++ p.name)
    else completeArgument input.request.argument
  | .ok (.Resource r) =>
    if r.uri ≠ "https://www.timezoneconverter.com/cgi-bin/zoneinfo?tz={timezone}" then
      .error ("Completion for resource not implemented: " ++ r.uri)
    else completeArgument input.request.argument

/-- `types::TextContent` content block; only the `text` field is set by
this plugin (the remaining generated fields stay at their defaults). -/
structure TextContent where
  text : String
deriving Repr, DecidableEq

structure CallToolRequestParam where
  name : String
  arguments : Option (List (String × JValue))
deriving Repr

structure CallToolRequest where
  request : CallToolRequestParam
deriving Repr

structure CallToolResult where
  content : List TextContent
  structured_content : Option (List (String × JValue))
  is_error : Option Bool
deriving Repr

/-- `arguments.as_ref().and_then(|args| args.get(key)).and_then(|v| v.as_str())`. -/
def argGetStr (arguments : Option (List (String × JValue))) (key : String) :
    Option String :=
  (arguments.bind (fun args => jLookup args key)).bind jAsStr

/-- `call_tool` (lib.rs lines 77-184).  The external collaborators are
passed in as parameters: `parseTz` is `str::parse::<chrono_tz::Tz>`
(returning the parsed zone's name or an error message), `now` renders
`chrono::Utc::now().with_timezone(&tz).to_rfc2822()` for a zone name, and
`parseRfc2822` is `chrono::DateTime::parse_from_rfc2822` (returning the
timestamp or an error message). -/
def call_tool (parseTz : String → Except String String) (now : String → String)
    (parseRfc2822 : String → Except String Int) (input : CallToolRequest) :
    Except String CallToolResult :=
  if input.request.name = "get_time" then
    match argGetStr input.request.arguments "timezone" with
    | some timezone =>
      match parseTz timezone with
      | .ok tz =>
        .ok ⟨[⟨now tz⟩], some [("current_time", .str (now tz))], none⟩
      | .error e =>
        .ok ⟨[⟨"Error: Invalid timezone '" ++ timezone ++ "': " ++ e⟩], none, some true⟩
    | none =>
      .ok ⟨[⟨now "UTC"⟩], some [("current_time", .str (now "UTC"))], none⟩
  else if input.request.name = "parse_time" then
    match argGetStr input.request.arguments "time" with
    | none => .ok ⟨[⟨"Error: 'time' argument is required"⟩], none, some true⟩
    | some time_str =>
      match parseRfc2822 time_str with
      | .ok ts => .ok ⟨[⟨toString ts⟩], some [("timestamp", .num ts)], none⟩
      | .error e => .ok ⟨[⟨"Error parsing time: " ++ e⟩], none, some true⟩
  else .error ("Unknown tool: " ++ input.request.name)

/-- Base64 alphabet used by `base64::engine::general_purpose::STANDARD`. -/
def b64Char (n : Nat) : Char :=
  "ABCDEFGHIJKLMNOPQRSTUVWXYZabcdefghijklmnopqrstuvwxyz0123456789+/".data.getD n 'A'

/-- `base64::engine::general_purpose::STANDARD.encode` on a byte sequence
(standard alphabet, `=` padding). -/
def base64Chars : List Nat → List Char
  | a :: b :: c :: rest =>
    b64Char (a / 4) :: b64Char (a % 4 * 16 + b / 16) ::
      b64Char (b % 16 * 4 + c / 64) :: b64Char (c % 64) :: base64Chars rest
  | [a, b] =>
    [b64Char (a / 4), b64Char (a % 4 * 16 + b / 16), b64Char (b % 16 * 4), '=']
  | [a] => [b64Char (a / 4), b64Char (a % 4 * 16), '=', '=']
  | [] => []

def base64Encode (bytes : List Nat) : String := ⟨base64Chars bytes⟩

/-- Outcome of `extism_pdk::http::request`: status code and body bytes. -/
structure HttpResponse where
  status_code : Nat
  body : List Nat
deriving Repr

structure ReadResourceRequestParam where
  uri : String
deriving Repr

structure ReadResourceRequest where
  request : ReadResourceRequestParam
deriving Repr

/-- A `ReadResourceResult` content entry: either `types::BlobResourceContents`
or `types::TextResourceContents` (the code leaves `uri` at its default `""`
for the textual error entries). -/
inductive ResourceContents where
  | blobContents (mime_type : Option String) (blob : String) (uri : String)
  | textContents (mime_type : Option String) (text : String) (uri : String)
deriving Repr, DecidableEq

structure ReadResourceResult where
  contents : List ResourceContents
deriving Repr, DecidableEq

/-- `read_resource` (lib.rs lines 429-489).  The HTTP fetch is the external
collaborator `fetch`; a transport failure is its `.error` case. -/
def read_resource (fetch : String → Except String HttpResponse)
    (input : ReadResourceRequest) : Except String ReadResourceResult :=
  if ¬ strStartsWith input.request.uri
      "https://www.timezoneconverter.com/cgi-bin/zoneinfo?tz=" then
    .ok ⟨[]⟩
  else
    match fetch input.request.uri with
    | .ok response =>
      if 200 ≤ response.status_code ∧ response.status_code < 300 then
        .ok ⟨[.blobContents (some "text/html") (base64Encode response.body)
          input.request.uri]⟩
      else
        .ok ⟨[.textContents (some "text/plain")
          ("Error fetching resource: HTTP " ++ toString response.status_code) ""]⟩
    | .error e =>
      .ok ⟨[.textContents (some "text/plain") ("Error fetching resource: " ++ e) ""]⟩

/-- JSON string escaping for serialization (quote and backslash; the
strings this plugin serializes contain no control characters). -/
def jsonEscape (s : String) : String :=
  ⟨s.data.foldr
    (fun c acc =>
      if c = '"' then '\\' :: '"' :: acc
      else if c = '\\' then '\\' :: '\\' :: acc
      else c :: acc) []⟩

mutual

/-- Compact `serde_json` serialization of a structured value
(`serde_json::Value::to_string`); object fields are emitted in the order
stored, which models `serde_json::Map`'s sorted key order. -/
def jsonToString : JValue → String
  | .null => "null"
  | .bool true => "true"
  | .bool false => "false"
  | .num n => toString n
  | .str s => "\"" ++ jsonEscape s ++ "\""
  | .arr xs => "[" ++ jsonSeqToString xs ++ "]"
  | .obj fs => "\x7b" ++ jsonFieldsToString fs ++ "\x7d"

def jsonSeqToString : List JValue → String
  | [] => ""
  | [x] => jsonToString x
  | x :: y :: xs => jsonToString x ++ "," ++ jsonSeqToString (y :: xs)

def jsonFieldsToString : List (String × JValue) → String
  | [] => ""
  | [(k, v)] => "\"" ++ jsonEscape k ++ "\":" ++ jsonToString v
  | (k, v) :: f :: fs =>
    "\"" ++ jsonEscape k ++ "\":" ++ jsonToString v ++ "," ++
      jsonFieldsToString (f :: fs)

end

/-- Wrapper plugin (`tests/integrations/wrapper-plugin/src/lib.rs`):
`pdk::types::ContentType`. -/
inductive ContentType where
  | text
  | image
  | resource
deriving Repr, DecidableEq

/-- Wrapper plugin `pdk::types::Content`; the plugin sets only `text` and
`type` (`r_type` models the raw identifier `r#type`). -/
structure Content where
  text : Option String
  r_type : ContentType
deriving Repr, DecidableEq

/-- Wrapper plugin `pdk::types::CallToolResult`
`{content: Vec<Content>, is_error: Option<bool>}`; this is also the host
function's return shape. -/
structure WCallToolResult where
  content : List Content
  is_error : Option Bool
deriving Repr, DecidableEq

/-- `CallToolRequestParam` defined in the wrapper plugin (lib.rs lines
21-25): the request shape sent to the `call_tool` host function. -/
structure HostCallParam where
  name : String
  arguments : Option (List (String × JValue))
deriving Repr

structure WCallToolRequestParams where
  arguments : Option (List (String × JValue))
deriving Repr

/-- Wrapper plugin `types::CallToolRequest`: the `call` entry point reads
`input.params.arguments`. -/
structure WCallToolRequest where
  params : WCallToolRequestParams
deriving Repr

/-- Modelled from the spec: `serde_json` serialization of a wrapper-pdk
`Content` block as embedded in the `time_data` field (the pdk type
definitions generated from the protocol description are not under src):
an object with the block's `text` and its content type tag. -/
def contentToJValue (c : Content) : JValue :=
  .obj [("text", match c.text with | some t => .str t | none => .null),
        ("type", .str (match c.r_type with
          | .text => "text" | .image => "image" | .resource => "resource"))]

/-- The text payload the wrapper builds on a successful host call
(wrapper lib.rs lines 54-68): `json!({"message": ..., "time_data":
result.content, "success": true}).to_string()` — `serde_json::Map` stores
keys sorted, so the serialized order is message, success, time_data.
Only the target's `content` enters the payload. -/
def wrapOkText (result : WCallToolResult) : String :=
  jsonToString (.obj
    [("message", .str "Time retrieved via cross-plugin call"),
     ("success", .bool true),
     ("time_data", .arr (result.content.map contentToJValue))])

/-- The text payload the wrapper builds on a failed host call (wrapper
lib.rs lines 70-84): `json!({"message": ..., "error": format!("{:?}", e),
"success": false}).to_string()` in sorted key order; the host error's
debug rendering is modelled as the error string itself. -/
def wrapErrText (e : String) : String :=
  jsonToString (.obj
    [("error", .str e),
     ("message", .str "Failed to call time plugin"),
     ("success", .bool false)])

/-- Outcome of the wrapper plugin's `call`: a Rust panic from an unguarded
`unwrap`, a dispatch-fatal `Err`, or an `Ok` result. -/
inductive WrapperOutcome where
  | panicked
  | failed (e : String)
  | ok (r : WCallToolResult)
deriving Repr, DecidableEq

/-- Wrapper plugin `call` (wrapper lib.rs lines 34-89).  The host-provided
`call_tool` function is the parameter `host_call_tool`; its `.error` case
is a call-level failure.  `args.get("name").unwrap().as_str().unwrap()`
panics when the key is missing or its value is not a string. -/
def call (host_call_tool : HostCallParam → Except String WCallToolResult)
    (input : WCallToolRequest) : WrapperOutcome :=
  match jLookup (input.params.arguments.getD []) "name" with
  | none => .panicked
  | some v =>
    match jAsStr v with
    | none => .panicked
    | some name =>
      if name = "get_wrapped_time" then
        match host_call_tool
            ⟨"time::time", some [("name", .str "get_time_utc")]⟩ with
        | .ok result =>
          .ok ⟨[⟨some (wrapOkText result), .text⟩], some false⟩
        | .error e =>
          .ok ⟨[⟨some (wrapErrText e), .text⟩], some true⟩
      else .failed "unknown command"

/-- The suggestion loop returns the in-order matches capped at 100
together with the uncapped match count. -/
theorem tzLoop_spec (query : String) (corpus : List String) :
    ∀ (suggestions : List String) (total : Int), suggestions.length ≤ 100 →
    tzLoop query corpus suggestions total =
      (suggestions ++
        (corpus.filter (fun tz => strContains (asciiLower tz) query)).take
          (100 - suggestions.length),
       total +
        ((corpus.filter (fun tz => strContains (asciiLower tz) query)).length : Int)) := by
  induction corpus with
  | nil => intro s t _; simp [tzLoop]
  | cons tz rest ih =>
    intro s t hs
    by_cases hm : strContains (asciiLower tz) query = true
    · have hf : List.filter (fun tz => strContains (asciiLower tz) query) (tz :: rest) =
          tz :: List.filter (fun tz => strContains (asciiLower tz) query) rest := by
        simp [hm]
      rw [tzLoop, if_pos hm, hf]
      by_cases hl : s.length < 100
      · rw [if_pos hl, ih (s ++ [tz]) (t + 1) (by simp; omega)]
        have hlen : (s ++ [tz]).length = s.length + 1 := by simp
        have h100 : 100 - s.length = (100 - (s.length + 1)) + 1 := by omega
        rw [hlen, h100, List.take_succ_cons, List.append_assoc,
          List.singleton_append, List.length_cons]
        simp only [Prod.mk.injEq]
        refine ⟨by trivial, ?_⟩
        push_cast
        ring
      · rw [if_neg hl, ih s (t + 1) hs]
        have h100 : 100 - s.length = 0 := by omega
        rw [h100]
        simp only [List.take_zero, List.append_nil, List.length_cons,
          Prod.mk.injEq, true_and]
        push_cast
        ring
    · have hf : List.filter (fun tz => strContains (asciiLower tz) query) (tz :: rest) =
          List.filter (fun tz => strContains (asciiLower tz) query) rest := by
        simp [hm]
      rw [tzLoop, if_neg hm, hf, ih s t hs]

/-- A successful `complete` is exactly a successful argument dispatch. -/
theorem complete_ok_inv (input : CompleteRequest) (res : CompleteResult)
    (h : complete input = .ok res) :
    completeArgument input.request.argument = .ok res := by
  unfold complete at h
  split at h
  · exact Except.noConfusion h
  · split at h
    · exact Except.noConfusion h
    · exact h
  · split at h
    · exact Except.noConfusion h
    · exact h

/-- A successful argument dispatch is the timezone corpus filtered by the
normalized query, capped at 100, with the uncapped total. -/
theorem completeArgument_ok_inv (a : CompleteRequestParamArgument)
    (res : CompleteResult) (h : completeArgument a = .ok res) :
    res.completion.values =
      (TZ_VARIANTS.filter (fun tz => strContains (asciiLower tz)
        (replaceSpaceUnderscore (asciiLower a.value)))).take 100 ∧
    res.completion.total =
      some ((TZ_VARIANTS.filter (fun tz => strContains (asciiLower tz)
        (replaceSpaceUnderscore (asciiLower a.value)))).length : Int) ∧
    res.completion.has_more =
      some (decide ((res.completion.values.length : Int) <
        ((TZ_VARIANTS.filter (fun tz => strContains (asciiLower tz)
          (replaceSpaceUnderscore (asciiLower a.value)))).length : Int))) := by
  unfold completeArgument at h
  by_cases hn : a.name = "timezone"
  · rw [if_pos hn] at h
    dsimp only at h
    rw [tzLoop_spec _ _ [] 0 (by simp)] at h
    cases h
    simp
  · rw [if_neg hn] at h
    exact Except.noConfusion h

/-- Claim C1: every successful `CompleteResult` produced by `complete`
satisfies `values.length ≤ 100` and `has_more = some (total > values.length)`. -/
theorem claim_C1 (input : CompleteRequest) (res : CompleteResult)
    (h : complete input = .ok res) :
    res.completion.values.length ≤ 100 ∧
    ∃ t : Int, res.completion.total = some t ∧
      res.completion.has_more = some (decide ((res.completion.values.length : Int) < t)) := by
  obtain ⟨hv, ht, hm⟩ := completeArgument_ok_inv _ _ (complete_ok_inv _ _ h)
  refine ⟨?_, _, ht, hm⟩
  rw [hv]
  exact List.length_take_le _ _

/-- Claim C2: with a valid reference (the implemented prompt or the
implemented resource template), argument name `"timezone"` and partial
value `"utc"`, `complete` returns exactly `["UTC"]` with `total = 1` and
`has_more = false`. -/
theorem claim_C2 (input : CompleteRequest)
    (h1 : (∃ t, referenceFromMap input.request.ref =
            .ok (.Prompt ⟨"get_time_with_timezone", t⟩)) ∨
          referenceFromMap input.request.ref =
            .ok (.Resource
              ⟨"https://www.timezoneconverter.com/cgi-bin/zoneinfo?tz={timezone}"⟩))
    (h2 : input.request.argument = ⟨"timezone", "utc"⟩) :
    complete input = .ok ⟨⟨some false, some 1, ["UTC"]⟩⟩ := by
  have key : completeArgument ⟨"timezone", "utc"⟩ =
      .ok ⟨⟨some false, some 1, ["UTC"]⟩⟩ := by decide
  unfold complete
  rcases h1 with ⟨t, href⟩ | href
  · rw [href, h2]
    dsimp only
    rw [if_neg (fun hh => hh rfl)]
    exact key
  · rw [href, h2]
    dsimp only
    rw [if_neg (fun hh => hh rfl)]
    exact key

theorem claim_C2_witness :
    complete ⟨⟨[("type", JValue.str "prompt"),
      ("name", JValue.str "get_time_with_timezone")], ⟨"timezone", "utc"⟩⟩⟩ =
    .ok ⟨⟨some false, some 1, ["UTC"]⟩⟩ :=
  claim_C2 _ (Or.inl ⟨none, rfl⟩) rfl

/-- Claim C3: with a valid reference, argument name `"timezone"` and an
empty partial value, every candidate matches: `total = 596` (the corpus
size), `values.length = 100` and `has_more = true`. -/
theorem claim_C3 (input : CompleteRequest)
    (h1 : (∃ t, referenceFromMap input.request.ref =
            .ok (.Prompt ⟨"get_time_with_timezone", t⟩)) ∨
          referenceFromMap input.request.ref =
            .ok (.Resource
              ⟨"https://www.timezoneconverter.com/cgi-bin/zoneinfo?tz={timezone}"⟩))
    (h2 : input.request.argument = ⟨"timezone", ""⟩) :
    ∃ res, complete input = .ok res ∧ res.completion.values.length = 100 ∧
      res.completion.has_more = some true ∧ res.completion.total = some 596 := by
  have key : completeArgument ⟨"timezone", ""⟩ =
      .ok ⟨⟨some true, some 596, TZ_VARIANTS.take 100⟩⟩ := by decide
  have hlen : (TZ_VARIANTS.take 100).length = 100 := by decide
  refine ⟨⟨⟨some true, some 596, TZ_VARIANTS.take 100⟩⟩, ?_, hlen, rfl, rfl⟩
  unfold complete
  rcases h1 with ⟨t, href⟩ | href
  · rw [href, h2]
    dsimp only
    rw [if_neg (fun hh => hh rfl)]
    exact key
  · rw [href, h2]
    dsimp only
    rw [if_neg (fun hh => hh rfl)]
    exact key

theorem claim_C3_witness :
    ∃ res, complete ⟨⟨[("type", JValue.str "prompt"),
        ("name", JValue.str "get_time_with_timezone")], ⟨"timezone", ""⟩⟩⟩ =
      .ok res ∧ res.completion.values.length = 100 ∧
      res.completion.has_more = some true ∧ res.completion.total = some 596 :=
  claim_C3 _ (Or.inl ⟨none, rfl⟩) rfl

/-- Claim C4: matching is case-insensitive and space/underscore
equivalent — every successful completion consists of the corpus entries
whose ASCII-lower-cased name contains the partial value lower-cased with
spaces replaced by underscores, in corpus enumeration order capped at
100, with `total` counting all of them; and in particular the query
`"los angeles"` matches the candidate `"America/Los_Angeles"`. -/
theorem claim_C4 :
    (∀ (input : CompleteRequest) (res : CompleteResult),
      complete input = .ok res →
      res.completion.values =
        (TZ_VARIANTS.filter (fun tz => strContains (asciiLower tz)
          (replaceSpaceUnderscore (asciiLower input.request.argument.value)))).take 100 ∧
      res.completion.total =
        some ((TZ_VARIANTS.filter (fun tz => strContains (asciiLower tz)
          (replaceSpaceUnderscore (asciiLower input.request.argument.value)))).length : Int)) ∧
    strContains (asciiLower "America/Los_Angeles")
      (replaceSpaceUnderscore (asciiLower "los angeles")) = true := by
  refine ⟨fun input res h => ?_, by decide⟩
  obtain ⟨hv, ht, _⟩ := completeArgument_ok_inv _ _ (complete_ok_inv _ _ h)
  exact ⟨hv, ht⟩

theorem claim_C4_witness :
    ((⟨⟨some false, some 1, ["UTC"]⟩⟩ : CompleteResult).completion.values =
      (TZ_VARIANTS.filter (fun tz => strContains (asciiLower tz)
        (replaceSpaceUnderscore (asciiLower "utc")))).take 100 ∧
     (⟨⟨some false, some 1, ["UTC"]⟩⟩ : CompleteResult).completion.total =
      some ((TZ_VARIANTS.filter (fun tz => strContains (asciiLower tz)
        (replaceSpaceUnderscore (asciiLower "utc")))).length : Int)) :=
  claim_C4.1 ⟨⟨[("type", JValue.str "prompt"),
    ("name", JValue.str "get_time_with_timezone")], ⟨"timezone", "utc"⟩⟩⟩ _ (by decide)

theorem claim_C1_witness :
    (⟨⟨some false, some 1, ["UTC"]⟩⟩ : CompleteResult).completion.values.length ≤ 100 ∧
    ∃ t : Int,
      (⟨⟨some false, some 1, ["UTC"]⟩⟩ : CompleteResult).completion.total = some t ∧
      (⟨⟨some false, some 1, ["UTC"]⟩⟩ : CompleteResult).completion.has_more =
        some (decide
          (((⟨⟨some false, some 1, ["UTC"]⟩⟩ :
            CompleteResult).completion.values.length : Int) < t)) :=
  claim_C1 ⟨⟨[("type", JValue.str "prompt"),
    ("name", JValue.str "get_time_with_timezone")], ⟨"timezone", "utc"⟩⟩⟩ _ (by decide)

/-- Claim C5 (counterexample): a map whose `"type"` field is `"prompt"`
but which lacks the `"name"` field required by the Prompt schema does not
resolve to the Prompt variant — re-interpreting the map as the variant's
schema fails, so "if its value is 'prompt' resolution yields the Prompt
variant" is false as stated. -/
theorem claim_C5_counterexample :
    referenceFromMap [("type", JValue.str "prompt")] =
      .error "missing field name in prompt reference" ∧
    (jLookup [("type", JValue.str "prompt")] "type").bind jAsStr = some "prompt" ∧
    (referenceFromMap [("type", JValue.str "prompt")]).isOk = false :=
  ⟨rfl, rfl, rfl⟩

/-- Claim C5 (amended): a missing or non-string `"type"` field fails with
the missing-discriminant error; `"prompt"` / `"resource"` re-interpret the
map as the corresponding variant's schema, yielding that variant when the
schema deserialization succeeds and propagating the deserialization error
when it fails; any other string fails with the unknown-variant error
carrying the value. -/
theorem claim_C5_amended :
    (∀ m : List (String × JValue), (jLookup m "type").bind jAsStr = none →
        referenceFromMap m = .error "Missing or invalid 'type' field in reference") ∧
    (∀ (m : List (String × JValue)) (p : PromptReference),
        (jLookup m "type").bind jAsStr = some "prompt" →
        promptRefFromValue m = .ok p → referenceFromMap m = .ok (.Prompt p)) ∧
    (∀ (m : List (String × JValue)) (e : String),
        (jLookup m "type").bind jAsStr = some "prompt" →
        promptRefFromValue m = .error e → referenceFromMap m = .error e) ∧
    (∀ (m : List (String × JValue)) (r : ResourceTemplateReference),
        (jLookup m "type").bind jAsStr = some "resource" →
        resourceRefFromValue m = .ok r → referenceFromMap m = .ok (.Resource r)) ∧
    (∀ (m : List (String × JValue)) (e : String),
        (jLookup m "type").bind jAsStr = some "resource" →
        resourceRefFromValue m = .error e → referenceFromMap m = .error e) ∧
    (∀ (m : List (String × JValue)) (tv : String),
        (jLookup m "type").bind jAsStr = some tv → tv ≠ "prompt" → tv ≠ "resource" →
        referenceFromMap m = .error ("Unknown reference type: " ++ tv)) := by
  refine ⟨fun m ht => ?_, fun m p ht hp => ?_, fun m e ht hp => ?_,
    fun m r ht hr => ?_, fun m e ht hr => ?_, fun m tv ht h1 h2 => ?_⟩
  · unfold referenceFromMap; rw [ht]
  · unfold referenceFromMap; rw [ht]; dsimp only; rw [if_pos rfl, hp]
  · unfold referenceFromMap; rw [ht]; dsimp only; rw [if_pos rfl, hp]
  · unfold referenceFromMap; rw [ht]; dsimp only
    rw [if_neg (by decide), if_pos rfl, hr]
  · unfold referenceFromMap; rw [ht]; dsimp only
    rw [if_neg (by decide), if_pos rfl, hr]
  · unfold referenceFromMap; rw [ht]; dsimp only
    rw [if_neg h1, if_neg h2]

theorem claim_C5_witness :
    referenceFromMap [] = .error "Missing or invalid 'type' field in reference" ∧
    referenceFromMap [("type", JValue.str "prompt"), ("name", JValue.str "x")] =
      .ok (.Prompt ⟨"x", none⟩) ∧
    referenceFromMap [("type", JValue.str "prompt"), ("name", JValue.bool true)] =
      .error "missing field name in prompt reference" ∧
    referenceFromMap [("type", JValue.str "resource"), ("uri", JValue.str "u")] =
      .ok (.Resource ⟨"u"⟩) ∧
    referenceFromMap [("type", JValue.str "resource")] =
      .error "missing field uri in resource reference" ∧
    referenceFromMap [("type", JValue.str "widget")] =
      .error ("Unknown reference type: " ++ "widget") :=
  ⟨claim_C5_amended.1 _ rfl,
   claim_C5_amended.2.1 _ _ rfl rfl,
   claim_C5_amended.2.2.1 _ _ rfl rfl,
   claim_C5_amended.2.2.2.1 _ _ rfl rfl,
   claim_C5_amended.2.2.2.2.1 _ _ rfl rfl,
   claim_C5_amended.2.2.2.2.2 _ _ rfl (by decide) (by decide)⟩

/-- Claim C6 (counterexample): the claim says the dispatch-fatal error
names the capability, but the wrapper plugin's error for an unrecognized
operation name is the constant `unknown command`, which does not mention
the requested capability name at all. -/
theorem claim_C6_counterexample :
    call (fun _ => .ok ⟨[], none⟩)
      ⟨⟨some [("name", JValue.str "bogus_wrapper_op")]⟩⟩ =
      .failed "unknown command" ∧
    strContains "unknown command" "bogus_wrapper_op" = false :=
  ⟨rfl, by decide⟩

/-- Claim C6 (amended): a call-tool request whose capability name is
outside the closed set of known names fails dispatch-fatally and can
never return a successful result (with or without `is_error = true`) —
the rstime plugin returns the hard `Unknown tool` error naming the
capability for any name other than `get_time` and `parse_time`, while
the wrapper plugin returns the hard constant `unknown command` error
(which does not name the capability) for any operation name other than
`get_wrapped_time`. -/
theorem claim_C6 :
    (∀ (parseTz : String → Except String String) (now : String → String)
        (parseRfc2822 : String → Except String Int) (input : CallToolRequest),
        input.request.name ≠ "get_time" → input.request.name ≠ "parse_time" →
        call_tool parseTz now parseRfc2822 input =
          .error ("Unknown tool: " ++ input.request.name)) ∧
    (∀ (host_call_tool : HostCallParam → Except String WCallToolResult)
        (input : WCallToolRequest) (n : String),
        jLookup (input.params.arguments.getD []) "name" = some (JValue.str n) →
        n ≠ "get_wrapped_time" →
        call host_call_tool input = .failed "unknown command") := by
  constructor
  · intro pTz now pR input h1 h2
    unfold call_tool
    rw [if_neg h1, if_neg h2]
  · intro host input n hl hn
    unfold call
    rw [hl]
    dsimp only [jAsStr]
    rw [if_neg hn]

theorem claim_C6_witness :
    call_tool (fun _ => .error "") (fun _ => "") (fun _ => .error "")
      ⟨⟨"bogus_tool", none⟩⟩ = .error ("Unknown tool: " ++ "bogus_tool") ∧
    call (fun _ => .ok ⟨[], none⟩) ⟨⟨some [("name", JValue.str "nope")]⟩⟩ =
      .failed "unknown command" :=
  ⟨claim_C6.1 _ _ _ _ (by decide) (by decide),
   claim_C6.2 _ _ _ rfl (by decide)⟩

/-- Claim C7 (counterexample): the wrapper plugin is a known capability
whose required `"name"` argument selects the operation, yet an
unrecognized operation name makes its dispatch fail with the hard
`unknown command` error instead of returning a successful result carrying
`is_error = true`. -/
theorem claim_C7_counterexample :
    call (fun _ => .ok ⟨[], some false⟩)
      ⟨⟨some [("name", JValue.str "bogus_operation")]⟩⟩ =
      .failed "unknown command" := rfl

/-- Claim C7 (amended): in the rstime plugin, a call-tool request with a
known capability name but a missing or invalid required argument returns
a successful result with `is_error = true` and a human-readable content
block (`parse_time` without a string `"time"` argument, `parse_time` with
an unparsable time string, `get_time` with an invalid timezone); the
wrapper plugin, by contrast, treats an unrecognized operation name as an
unknown capability and fails dispatch-fatally. -/
theorem claim_C7_amended :
    (∀ (parseTz : String → Except String String) (now : String → String)
        (parseRfc2822 : String → Except String Int) (input : CallToolRequest),
        input.request.name = "parse_time" →
        argGetStr input.request.arguments "time" = none →
        call_tool parseTz now parseRfc2822 input =
          .ok ⟨[⟨"Error: 'time' argument is required"⟩], none, some true⟩) ∧
    (∀ (parseTz : String → Except String String) (now : String → String)
        (parseRfc2822 : String → Except String Int) (input : CallToolRequest)
        (t e : String),
        input.request.name = "parse_time" →
        argGetStr input.request.arguments "time" = some t →
        parseRfc2822 t = .error e →
        call_tool parseTz now parseRfc2822 input =
          .ok ⟨[⟨"Error parsing time: " ++ e⟩], none, some true⟩) ∧
    (∀ (parseTz : String → Except String String) (now : String → String)
        (parseRfc2822 : String → Except String Int) (input : CallToolRequest)
        (tzs e : String),
        input.request.name = "get_time" →
        argGetStr input.request.arguments "timezone" = some tzs →
        parseTz tzs = .error e →
        call_tool parseTz now parseRfc2822 input =
          .ok ⟨[⟨"Error: Invalid timezone '" ++ tzs ++ "': " ++ e⟩], none, some true⟩) ∧
    (∀ (host_call_tool : HostCallParam → Except String WCallToolResult)
        (input : WCallToolRequest) (n : String),
        jLookup (input.params.arguments.getD []) "name" = some (JValue.str n) →
        n ≠ "get_wrapped_time" →
        call host_call_tool input = .failed "unknown command") := by
  refine ⟨fun pTz now pR input h1 h2 => ?_, fun pTz now pR input t e h1 h2 h3 => ?_,
    fun pTz now pR input tzs e h1 h2 h3 => ?_, fun host input n hl hn => ?_⟩
  · unfold call_tool
    rw [if_neg (by rw [h1]; decide), if_pos h1, h2]
  · unfold call_tool
    rw [if_neg (by rw [h1]; decide), if_pos h1, h2]
    dsimp only
    rw [h3]
  · unfold call_tool
    rw [if_pos h1, h2]
    dsimp only
    rw [h3]
  · unfold call
    rw [hl]
    dsimp only [jAsStr]
    rw [if_neg hn]

theorem claim_C7_witness :
    call_tool (fun _ => .error "tzerr") (fun _ => "nowstr") (fun _ => .error "baderr")
      ⟨⟨"parse_time", none⟩⟩ =
      .ok ⟨[⟨"Error: 'time' argument is required"⟩], none, some true⟩ ∧
    call_tool (fun _ => .error "tzerr") (fun _ => "nowstr") (fun _ => .error "baderr")
      ⟨⟨"parse_time", some [("time", JValue.str "junk")]⟩⟩ =
      .ok ⟨[⟨"Error parsing time: " ++ "baderr"⟩], none, some true⟩ ∧
    call_tool (fun _ => .error "tzerr") (fun _ => "nowstr") (fun _ => .error "baderr")
      ⟨⟨"get_time", some [("timezone", JValue.str "Nope/Nowhere")]⟩⟩ =
      .ok ⟨[⟨"Error: Invalid timezone '" ++ "Nope/Nowhere" ++ "': " ++ "tzerr"⟩],
        none, some true⟩ ∧
    call (fun _ => .ok ⟨[], none⟩) ⟨⟨some [("name", JValue.str "other_op")]⟩⟩ =
      .failed "unknown command" :=
  ⟨claim_C7_amended.1 _ _ _ _ rfl rfl,
   claim_C7_amended.2.1 _ _ _ _ _ _ rfl rfl rfl,
   claim_C7_amended.2.2.1 _ _ _ _ _ _ rfl rfl rfl,
   claim_C7_amended.2.2.2 _ _ _ rfl (by decide)⟩

/-- Claim C8: `read_resource` never returns an error — a URI outside the
owned template prefix yields the explicitly empty result; a transport
failure or a non-2xx status on an owned URI yields a successful result
with textual content describing the failure; a 2xx response yields
base64-encoded binary content tagged `text/html`. -/
theorem claim_C8 (fetch : String → Except String HttpResponse)
    (input : ReadResourceRequest) :
    (∃ r, read_resource fetch input = .ok r) ∧
    (strStartsWith input.request.uri
        "https://www.timezoneconverter.com/cgi-bin/zoneinfo?tz=" = false →
      read_resource fetch input = .ok ⟨[]⟩) ∧
    (∀ e : String, strStartsWith input.request.uri
        "https://www.timezoneconverter.com/cgi-bin/zoneinfo?tz=" = true →
      fetch input.request.uri = .error e →
      read_resource fetch input = .ok ⟨[.textContents (some "text/plain")
        ("Error fetching resource: " ++ e) ""]⟩) ∧
    (∀ response : HttpResponse, strStartsWith input.request.uri
        "https://www.timezoneconverter.com/cgi-bin/zoneinfo?tz=" = true →
      fetch input.request.uri = .ok response →
      200 ≤ response.status_code → response.status_code < 300 →
      read_resource fetch input = .ok ⟨[.blobContents (some "text/html")
        (base64Encode response.body) input.request.uri]⟩) ∧
    (∀ response : HttpResponse, strStartsWith input.request.uri
        "https://www.timezoneconverter.com/cgi-bin/zoneinfo?tz=" = true →
      fetch input.request.uri = .ok response →
      ¬(200 ≤ response.status_code ∧ response.status_code < 300) →
      read_resource fetch input = .ok ⟨[.textContents (some "text/plain")
        ("Error fetching resource: HTTP " ++ toString response.status_code) ""]⟩) := by
  have hempty : strStartsWith input.request.uri
      "https://www.timezoneconverter.com/cgi-bin/zoneinfo?tz=" = false →
      read_resource fetch input = .ok ⟨[]⟩ := by
    intro hb
    unfold read_resource
    rw [if_pos (by simp [hb])]
  have herr : ∀ e : String, strStartsWith input.request.uri
      "https://www.timezoneconverter.com/cgi-bin/zoneinfo?tz=" = true →
      fetch input.request.uri = .error e →
      read_resource fetch input = .ok ⟨[.textContents (some "text/plain")
        ("Error fetching resource: " ++ e) ""]⟩ := by
    intro e hb hf
    unfold read_resource
    rw [if_neg (by simp [hb]), hf]
  have hblob : ∀ response : HttpResponse, strStartsWith input.request.uri
      "https://www.timezoneconverter.com/cgi-bin/zoneinfo?tz=" = true →
      fetch input.request.uri = .ok response →
      200 ≤ response.status_code → response.status_code < 300 →
      read_resource fetch input = .ok ⟨[.blobContents (some "text/html")
        (base64Encode response.body) input.request.uri]⟩ := by
    intro response hb hf h1 h2
    unfold read_resource
    rw [if_neg (by simp [hb]), hf]
    dsimp only
    rw [if_pos ⟨h1, h2⟩]
  have hhttp : ∀ response : HttpResponse, strStartsWith input.request.uri
      "https://www.timezoneconverter.com/cgi-bin/zoneinfo?tz=" = true →
      fetch input.request.uri = .ok response →
      ¬(200 ≤ response.status_code ∧ response.status_code < 300) →
      read_resource fetch input = .ok ⟨[.textContents (some "text/plain")
        ("Error fetching resource: HTTP " ++ toString response.status_code) ""]⟩ := by
    intro response hb hf h3
    unfold read_resource
    rw [if_neg (by simp [hb]), hf]
    dsimp only
    rw [if_neg h3]
  refine ⟨?_, hempty, herr, hblob, hhttp⟩
  cases hb : strStartsWith input.request.uri
      "https://www.timezoneconverter.com/cgi-bin/zoneinfo?tz=" with
  | false => exact ⟨_, hempty hb⟩
  | true =>
    cases hf : fetch input.request.uri with
    | error e => exact ⟨_, herr e hb hf⟩
    | ok response =>
      by_cases hs : 200 ≤ response.status_code ∧ response.status_code < 300
      · exact ⟨_, hblob response hb hf hs.1 hs.2⟩
      · exact ⟨_, hhttp response hb hf hs⟩

theorem claim_C8_witness :
    read_resource (fun _ => .ok ⟨404, []⟩)
      ⟨⟨"https://www.timezoneconverter.com/cgi-bin/zoneinfo?tz=UTC"⟩⟩ =
      .ok ⟨[.textContents (some "text/plain")
        ("Error fetching resource: HTTP " ++ toString (404 : Nat)) ""]⟩ ∧
    read_resource (fun _ => .ok ⟨200, [1, 2, 3]⟩) ⟨⟨"file:///etc/passwd"⟩⟩ =
      .ok ⟨[]⟩ ∧
    read_resource (fun _ => .ok ⟨200, [1, 2, 3]⟩)
      ⟨⟨"https://www.timezoneconverter.com/cgi-bin/zoneinfo?tz=UTC"⟩⟩ =
      .ok ⟨[.blobContents (some "text/html") (base64Encode [1, 2, 3])
        "https://www.timezoneconverter.com/cgi-bin/zoneinfo?tz=UTC"]⟩ ∧
    read_resource (fun _ => .error "connection refused")
      ⟨⟨"https://www.timezoneconverter.com/cgi-bin/zoneinfo?tz=UTC"⟩⟩ =
      .ok ⟨[.textContents (some "text/plain")
        ("Error fetching resource: " ++ "connection refused") ""]⟩ :=
  ⟨(claim_C8 _ _).2.2.2.2 ⟨404, []⟩ (by decide) rfl (by decide),
   (claim_C8 _ _).2.1 (by decide),
   (claim_C8 _ _).2.2.2.1 ⟨200, [1, 2, 3]⟩ (by decide) rfl (by decide) (by decide),
   (claim_C8 _ _).2.2.1 "connection refused" (by decide) rfl⟩

/-- Claim C9 (code defect at the failing input): when the host `call_tool`
function itself fails, the wrapper records the failure observably
(`is_error = true` and `"success":false` in the payload); but when the
host call succeeds, the wrapper emits `is_error = some false` and
`"success":true` regardless of the target's own `is_error` flag — its
output on a target that soft-failed (`is_error = some true`) is
identical to its output on a target that succeeded, so the target's
success/failure signal is not preserved observably. -/
theorem claim_C9_bug :
    call (fun _ => .ok ⟨[], some true⟩)
      ⟨⟨some [("name", JValue.str "get_wrapped_time")]⟩⟩ =
      .ok ⟨[⟨some (wrapOkText ⟨[], some true⟩), .text⟩], some false⟩ ∧
    call (fun _ => .ok ⟨[], some true⟩)
      ⟨⟨some [("name", JValue.str "get_wrapped_time")]⟩⟩ =
    call (fun _ => .ok ⟨[], some false⟩)
      ⟨⟨some [("name", JValue.str "get_wrapped_time")]⟩⟩ ∧
    call (fun _ => .error "host failure")
      ⟨⟨some [("name", JValue.str "get_wrapped_time")]⟩⟩ =
      .ok ⟨[⟨some (wrapErrText "host failure"), .text⟩], some true⟩ ∧
    strContains (wrapErrText "host failure") "\"success\":false" = true ∧
    strContains (wrapOkText ⟨[], some true⟩) "\"success\":true" = true :=
  ⟨rfl, rfl, rfl, by decide, by decide⟩

/-- Claim C10: the wrapper plugin's `call` is partial at its public
interface — when the arguments map is absent, lacks a `"name"` key, or
its `"name"` value is not a string, the unguarded unwraps panic instead
of returning a soft-error result or a dispatch-fatal error. -/
theorem claim_C10 (host_call_tool : HostCallParam → Except String WCallToolResult)
    (input : WCallToolRequest)
    (h : input.params.arguments = none ∨
         jLookup (input.params.arguments.getD []) "name" = none ∨
         ∃ v, jLookup (input.params.arguments.getD []) "name" = some v ∧
           jAsStr v = none) :
    call host_call_tool input = .panicked := by
  rcases h with h | h | ⟨v, hv, hs⟩
  · unfold call
    rw [h]
    rfl
  · unfold call
    rw [h]
  · unfold call
    rw [hv]
    dsimp only
    rw [hs]

theorem claim_C10_witness :
    call (fun _ => .error "unused") ⟨⟨none⟩⟩ = .panicked ∧
    call (fun _ => .error "unused") ⟨⟨some [("other", JValue.str "x")]⟩⟩ = .panicked ∧
    call (fun _ => .error "unused") ⟨⟨some [("name", JValue.num 7)]⟩⟩ = .panicked :=
  ⟨claim_C10 _ _ (Or.inl rfl),
   claim_C10 _ _ (Or.inr (Or.inl rfl)),
   claim_C10 _ _ (Or.inr (Or.inr ⟨JValue.num 7, rfl, rfl⟩))⟩
